import Mathlib

/-!
Verification development for the tile-grid physics / collision core of a
2D platformer (source files: `player.py`, `npc.py`, `map_utils.py`,
`fornewmap.py`).

Modelling conventions:
* Python floats (positions, velocities, timers) are modelled as rationals.
  Because the library's `+`, `-`, `*` on `ℚ` are `@[irreducible]`, the
  embedding uses the kernel-computable wrappers `qAdd`, `qSub`, `qMul`,
  `qAbs`, `qMax`, `qMin` below, each proved equal to the corresponding
  standard operation, so that concrete runs of the model can be evaluated
  inside proofs.
* `pygame.Rect` stores integer coordinates; constructing a rect from floats
  truncates them toward zero; `Rect.colliderect` treats rectangles that only
  touch on an edge as non-overlapping.  Both are modelled exactly.
* Only the physics-relevant attributes of `Player` / `NPC` are kept in the
  state (position, velocity, grounded flag, jump counter, dash state);
  sprites, sounds, health and inventory do not feed back into physics.
* The player is modelled with its constructor-default scale factor 0.75,
  hence `width = height = int(32 * 0.75) = 24`; the NPC with scale 1.0,
  hence `width = height = 60`.
-/

namespace Platformer

/-- Kernel-computable addition on `ℚ` (see `qAdd_eq`). -/
def qAdd (a b : ℚ) : ℚ :=
  mkRat (a.num * (b.den : ℤ) + b.num * (a.den : ℤ)) (a.den * b.den)

/-- Kernel-computable multiplication on `ℚ` (see `qMul_eq`). -/
def qMul (a b : ℚ) : ℚ :=
  mkRat (a.num * b.num) (a.den * b.den)

/-- Kernel-computable subtraction on `ℚ` (see `qSub_eq`). -/
def qSub (a b : ℚ) : ℚ := qAdd a (-b)

/-- Python's `abs` on a float, kernel-computable (see `qAbs_eq`). -/
def qAbs (a : ℚ) : ℚ := if a < 0 then -a else a

/-- Python's binary `max`, kernel-computable (see `qMax_eq`). -/
def qMax (a b : ℚ) : ℚ := if a ≤ b then b else a

/-- Python's binary `min`, kernel-computable (see `qMin_eq`). -/
def qMin (a b : ℚ) : ℚ := if a ≤ b then a else b

lemma qAdd_eq (a b : ℚ) : qAdd a b = a + b := by
  have ha : ((a.den : ℚ)) ≠ 0 := by
    exact_mod_cast a.den_nz
  have hb : ((b.den : ℚ)) ≠ 0 := by
    exact_mod_cast b.den_nz
  rw [qAdd, Rat.mkRat_eq_div]
  push_cast
  conv_rhs => rw [← Rat.num_div_den a, ← Rat.num_div_den b]
  rw [div_add_div _ _ ha hb]
  ring_nf

lemma qMul_eq (a b : ℚ) : qMul a b = a * b := by
  have ha : ((a.den : ℚ)) ≠ 0 := by
    exact_mod_cast a.den_nz
  have hb : ((b.den : ℚ)) ≠ 0 := by
    exact_mod_cast b.den_nz
  rw [qMul, Rat.mkRat_eq_div]
  push_cast
  conv_rhs => rw [← Rat.num_div_den a, ← Rat.num_div_den b]
  rw [div_mul_div_comm]

lemma qSub_eq (a b : ℚ) : qSub a b = a - b := by
  rw [qSub, qAdd_eq, sub_eq_add_neg]

lemma qAbs_eq (a : ℚ) : qAbs a = |a| := by
  rw [qAbs, abs]
  rcases lt_trichotomy a 0 with h | h | h
  · rw [if_pos h]
    exact (max_eq_right (by linarith)).symm
  · simp [h]
  · rw [if_neg (not_lt.mpr h.le)]
    exact (max_eq_left (by linarith)).symm

lemma qMax_eq (a b : ℚ) : qMax a b = max a b := (max_def a b).symm

lemma qMin_eq (a b : ℚ) : qMin a b = min a b := (min_def a b).symm

/-- Conversion of a Python float to an `int` as done by `pygame.Rect`:
truncation toward zero (`q.num.tdiv q.den` is exactly that, as `q.den > 0`). -/
def pyTrunc (q : ℚ) : ℤ := q.num.tdiv q.den

/-- Floor division `int(q // 32)` of a Python float `q` by the tile size.
Here `q / 32 = q.num / (32 * q.den)` as an integer fraction with positive
denominator, whose floor is `Int.fdiv`. -/
def tileOf (q : ℚ) : ℤ := q.num.fdiv (32 * (q.den : ℤ))

/-- The collision grid: `tiles[y][x]` is a tile gid, non-zero means solid. -/
abbrev Grid := List (List ℕ)

/-- Cell lookup `tiles[ty][tx]`; cells outside the stored grid read as `0` (the loops in
the source only ever index inside the grid, so this total version agrees with
the source on every index the code touches). -/
def gidAt (tiles : Grid) (ty tx : ℤ) : ℕ :=
  if ty < 0 ∨ tx < 0 then 0 else (tiles.getD ty.toNat []).getD tx.toNat 0

/-- Python `len(tiles)` as an integer. -/
def rowsOf (tiles : Grid) : ℤ := tiles.length

/-- Python `len(tiles[0])` as an integer (the source only evaluates it on non-empty
grids; on `[]` this reads the length of the default empty row). -/
def colsOf (tiles : Grid) : ℤ := (tiles.getD 0 []).length

/-- An integer-coordinate rectangle, as `pygame.Rect(left, top, w, h)`. -/
structure PRect where
  left : ℤ
  top : ℤ
  w : ℤ
  h : ℤ
deriving DecidableEq, Repr

/-- Overlap test `pygame.Rect.colliderect`: true overlap, rectangles sharing only an edge
do not collide. -/
abbrev overlaps (a b : PRect) : Prop :=
  a.left < b.left + b.w ∧ b.left < a.left + a.w ∧
  a.top < b.top + b.h ∧ b.top < a.top + a.h

/-- The 32×32 pixel rectangle of the tile in row `ty`, column `tx`. -/
def tileRect (ty tx : ℤ) : PRect := ⟨tx * 32, ty * 32, 32, 32⟩

/-- Python `range(a, b)` as a list of integers. -/
def idxRange (a b : ℤ) : List ℤ :=
  (List.range (b - a).toNat).map (fun i : ℕ => a + (i : ℤ))

/-- The row-major list of `(tile_y, tile_x)` pairs visited by the nested
`for y in range(a1, b1): for x in range(a2, b2)` loops of the source. -/
def winPairs (a1 b1 a2 b2 : ℤ) : List (ℤ × ℤ) :=
  (idxRange a1 b1).flatMap (fun ty => (idxRange a2 b2).map (fun tx => (ty, tx)))

/-- Physics-relevant state shared by `Player` and `NPC`. -/
structure Body where
  x : ℚ
  y : ℚ
  velX : ℚ
  velY : ℚ
  onGround : Bool
  jumpCount : ℕ
  isDashing : Bool
  facingRight : Bool
  dashTimer : ℚ
  dashCooldownTimer : ℚ
deriving DecidableEq, Repr

/-- Bounding box `pygame.Rect(self.x, self.y, w, h)` for a body of size `w × h`. -/
def bodyRect (w h : ℤ) (s : Body) : PRect :=
  ⟨pyTrunc s.x, pyTrunc s.y, w, h⟩

/-! Player collision passes (`player.py`, `check_horizontal_collisions`
and `check_vertical_collisions`). -/

/-- Search window of `Player.check_vertical_collisions`: rows and columns
from the player's tile position minus 3 up to (exclusive) plus 5, clamped to
the grid. -/
def pWindowV (tiles : Grid) (s : Body) : List (ℤ × ℤ) :=
  winPairs (max 0 (tileOf s.y - 3)) (min (rowsOf tiles) (tileOf s.y + 5))
    (max 0 (tileOf s.x - 3)) (min (colsOf tiles) (tileOf s.x + 5))

/-- Search window of `Player.check_horizontal_collisions`: minus 2 up to
(exclusive) plus 4, clamped to the grid. -/
def pWindowH (tiles : Grid) (s : Body) : List (ℤ × ℤ) :=
  winPairs (max 0 (tileOf s.y - 2)) (min (rowsOf tiles) (tileOf s.y + 4))
    (max 0 (tileOf s.x - 2)) (min (colsOf tiles) (tileOf s.x + 4))

/-- Loop body of `Player.check_vertical_collisions`: for tile `p` inside the
grid, solid, and overlapping the (fixed) player rect `r`: falling ⇒ land on
the tile top (`y = tile.top - height`, grounded, jump count reset), rising ⇒
bump the head on the tile bottom (`y = tile.bottom`). -/
def pVStep (tiles : Grid) (r : PRect) (st : Body) (p : ℤ × ℤ) : Body :=
  if p.1 < rowsOf tiles ∧ p.2 < colsOf tiles then
    if gidAt tiles p.1 p.2 ≠ 0 then
      if overlaps r (tileRect p.1 p.2) then
        if 0 < st.velY then
          { st with y := ((p.1 * 32 - 24 : ℤ) : ℚ), velY := 0,
                    onGround := true, jumpCount := 0 }
        else if st.velY < 0 then
          { st with y := ((p.1 * 32 + 32 : ℤ) : ℚ), velY := 0 }
        else st
      else st
    else st
  else st

/-- The grounded reset plus the tile sweep of
`Player.check_vertical_collisions` (everything before the fallback snap). -/
def pVertLoop (tiles : Grid) (s : Body) : Body :=
  (pWindowV tiles s).foldl (pVStep tiles (bodyRect 24 24 s))
    { s with onGround := false }

/-- Fallback snap at the end of `Player.check_vertical_collisions`: if still
airborne with `vel_y >= 0` and the bottom edge is within 2 px of the
hardcoded ground level 928, snap onto the ground level. -/
def pVertFinish (st : Body) : Body :=
  if st.onGround = false ∧ 0 ≤ st.velY ∧ qAbs (qSub (qAdd st.y 24) 928) ≤ 2 then
    { st with y := ((928 - 24 : ℤ) : ℚ), velY := 0, onGround := true,
              jumpCount := 0 }
  else st

/-- Full `Player.check_vertical_collisions`. -/
def pCheckVertical (tiles : Grid) (s : Body) : Body :=
  pVertFinish (pVertLoop tiles s)

/-- Loop body of `Player.check_horizontal_collisions`.  Note the source
guards: `if self.vel_x > 0 or self.is_dashing: ... elif self.vel_x < 0 or
self.is_dashing: ...`. -/
def pHStep (tiles : Grid) (r : PRect) (st : Body) (p : ℤ × ℤ) : Body :=
  if p.1 < rowsOf tiles ∧ p.2 < colsOf tiles then
    if gidAt tiles p.1 p.2 ≠ 0 then
      if overlaps r (tileRect p.1 p.2) then
        if 0 < st.velX ∨ st.isDashing = true then
          { st with x := ((p.2 * 32 - 24 : ℤ) : ℚ) }
        else if st.velX < 0 ∨ st.isDashing = true then
          { st with x := ((p.2 * 32 + 32 : ℤ) : ℚ) }
        else st
      else st
    else st
  else st

/-- Full `Player.check_horizontal_collisions`. -/
def pCheckHorizontal (tiles : Grid) (s : Body) : Body :=
  (pWindowH tiles s).foldl (pHStep tiles (bodyRect 24 24 s)) s

/-! NPC collision passes (`npc.py`): same structure, body size 60×60,
window margins −2/+4 on both passes, no dash override and no fallback
snap. -/

/-- Search window of both NPC collision passes (−2/+4). -/
def nWindow (tiles : Grid) (s : Body) : List (ℤ × ℤ) :=
  winPairs (max 0 (tileOf s.y - 2)) (min (rowsOf tiles) (tileOf s.y + 4))
    (max 0 (tileOf s.x - 2)) (min (colsOf tiles) (tileOf s.x + 4))

/-- Loop body of `NPC.check_vertical_collisions`. -/
def nVStep (tiles : Grid) (r : PRect) (st : Body) (p : ℤ × ℤ) : Body :=
  if p.1 < rowsOf tiles ∧ p.2 < colsOf tiles then
    if gidAt tiles p.1 p.2 ≠ 0 then
      if overlaps r (tileRect p.1 p.2) then
        if 0 < st.velY then
          { st with y := ((p.1 * 32 - 60 : ℤ) : ℚ), velY := 0,
                    onGround := true, jumpCount := 0 }
        else if st.velY < 0 then
          { st with y := ((p.1 * 32 + 32 : ℤ) : ℚ), velY := 0 }
        else st
      else st
    else st
  else st

/-- Full `NPC.check_vertical_collisions` (no fallback snap). -/
def nCheckVertical (tiles : Grid) (s : Body) : Body :=
  (nWindow tiles s).foldl (nVStep tiles (bodyRect 60 60 s))
    { s with onGround := false }

/-- Loop body of `NPC.check_horizontal_collisions` (pure velocity-sign
branches, no dash disjunct). -/
def nHStep (tiles : Grid) (r : PRect) (st : Body) (p : ℤ × ℤ) : Body :=
  if p.1 < rowsOf tiles ∧ p.2 < colsOf tiles then
    if gidAt tiles p.1 p.2 ≠ 0 then
      if overlaps r (tileRect p.1 p.2) then
        if 0 < st.velX then
          { st with x := ((p.2 * 32 - 60 : ℤ) : ℚ) }
        else if st.velX < 0 then
          { st with x := ((p.2 * 32 + 32 : ℤ) : ℚ) }
        else st
      else st
    else st
  else st

/-- Full `NPC.check_horizontal_collisions`. -/
def nCheckHorizontal (tiles : Grid) (s : Body) : Body :=
  (nWindow tiles s).foldl (nHStep tiles (bodyRect 60 60 s)) s

/-! Per-tick updates (`Player.update`, `NPC.update`). -/

/-- The keys sampled by the update functions. -/
structure Keys where
  left : Bool
  right : Bool
  space : Bool
  a : Bool
  d : Bool
deriving DecidableEq, Repr

/-- No key held. -/
def noKeys : Keys := ⟨false, false, false, false, false⟩

/-- Gravity integration of `Player.update`: `vel_y += 1000 * dt`, then clamp
to `max_fall_speed = 500`. -/
def pApplyGravity (dt v : ℚ) : ℚ :=
  let v2 := qAdd v (qMul 1000 dt)
  if 500 < v2 then 500 else v2

/-- Input handling `Player.handle_normal_movement`: direct velocity set, jump while
grounded, dash trigger (sound playback omitted; dash duration 0.2 s,
cooldown 1 s). -/
def playerMove (k : Keys) (s : Body) : Body :=
  let s1 :=
    if k.left = true then { s with velX := -150, facingRight := false }
    else if k.right = true then { s with velX := 150, facingRight := true }
    else { s with velX := 0 }
  let s2 :=
    if k.space = true ∧ s1.onGround = true then
      { s1 with velY := -450, onGround := false, jumpCount := s1.jumpCount + 1 }
    else s1
  if k.d = true ∧ s2.isDashing = false ∧ s2.dashCooldownTimer ≤ 0 then
    { s2 with isDashing := true, dashTimer := mkRat 1 5, dashCooldownTimer := 1 }
  else s2

/-- The dash-timer bookkeeping at the end of `Player.update` and
`NPC.update` (identical in both sources). -/
def dashTick (dt : ℚ) (s : Body) : Body :=
  let s1 :=
    if s.isDashing = true then
      let t := qSub s.dashTimer dt
      if t ≤ 0 then { s with dashTimer := t, isDashing := false }
      else { s with dashTimer := t }
    else s
  if 0 < s1.dashCooldownTimer then
    { s1 with dashCooldownTimer := qSub s1.dashCooldownTimer dt }
  else s1

/-- Integration block of `Player.update` (after input handling): gravity
with fall clamp, position integration, map-boundary clamp to
`[0, 1920-24] × [0, 960-24]`, hardcoded ground-level clamp at `y > 928`
(which grounds the body and zeroes `vel_y`). -/
def playerPhysics (dt : ℚ) (s1 : Body) : Body :=
  let s2 := { s1 with velY := pApplyGravity dt s1.velY }
  let s3 := { s2 with x := qAdd s2.x (qMul s2.velX dt),
                      y := qAdd s2.y (qMul s2.velY dt) }
  let s4 := { s3 with x := qMax 0 (qMin s3.x ((1920 - 24 : ℤ) : ℚ)),
                      y := qMax 0 (qMin s3.y ((960 - 24 : ℤ) : ℚ)) }
  if 928 < s4.y then
    { s4 with y := ((928 - 24 : ℤ) : ℚ), velY := 0, onGround := true }
  else s4

/-- Per-tick `Player.update` (physics projection): movement input, the
integration block `playerPhysics`, then — only when the grid is non-empty —
the horizontal and vertical collision passes, then dash-timer bookkeeping.
Health, animation and knife updates do not touch the physics state. -/
def playerUpdate (k : Keys) (dt : ℚ) (tiles : Grid) (s : Body) : Body :=
  let s5 := playerPhysics dt (playerMove k s)
  let s6 :=
    if tiles = [] then s5
    else pCheckVertical tiles (pCheckHorizontal tiles s5)
  dashTick dt s6

/-- Input handling `NPC.handle_normal_movement` (A/left, D/right, jump, dash trigger). -/
def npcMove (k : Keys) (s : Body) : Body :=
  let s1 :=
    if k.a = true ∨ k.left = true then
      { s with velX := -100, facingRight := false }
    else if k.d = true ∨ k.right = true then
      { s with velX := 100, facingRight := true }
    else { s with velX := 0 }
  let s2 :=
    if k.space = true ∧ s1.onGround = true then
      { s1 with velY := -300, onGround := false, jumpCount := s1.jumpCount + 1 }
    else s1
  if k.d = true ∧ s2.isDashing = false ∧ s2.dashCooldownTimer ≤ 0 then
    { s2 with isDashing := true, dashTimer := mkRat 1 5, dashCooldownTimer := 1 }
  else s2

/-- Per-tick `NPC.update` (physics projection): movement input, gravity `vel_y +=
600 * dt` with **no** fall-speed clamp, position integration, no boundary or
ground-level clamp, collision passes only when the grid is non-empty, dash
bookkeeping. -/
def npcUpdate (k : Keys) (dt : ℚ) (tiles : Grid) (s : Body) : Body :=
  let s1 := npcMove k s
  let s2 := { s1 with velY := qAdd s1.velY (qMul 600 dt) }
  let s3 := { s2 with x := qAdd s2.x (qMul s2.velX dt),
                      y := qAdd s2.y (qMul s2.velY dt) }
  let s4 :=
    if tiles = [] then s3
    else nCheckVertical tiles (nCheckHorizontal tiles s3)
  dashTick dt s4

/-! Map model (`map_utils.py`, `fornewmap.py`).  `load_tmx_map` returns a
dict whose `'layers'` entry is a **list** of per-layer dicts
`{name, width, height, data}` with `data` a flat (row-major) list of tile
gids. -/

/-- One TMX layer as produced by `map_utils.load_tmx_map`. -/
structure TLayer where
  name : String
  width : ℕ
  height : ℕ
  data : List ℕ
deriving DecidableEq, Repr

/-- The TMX map as produced by `map_utils.load_tmx_map` (tile pixel sizes
omitted: the grid builders do not read them). -/
structure TMap where
  width : ℕ
  height : ℕ
  layers : List TLayer
deriving DecidableEq, Repr

/-- Python equality between a `str` and a layer dict: always `False`.  This
is what `name in map_data['layers']` tests element-wise, since
`map_data['layers']` is a list of dicts, not a dict keyed by name. -/
def strEqLayer (_ : String) (_ : TLayer) : Bool := false

/-- Python `name in layers` for a list of layer dicts. -/
def strInLayers (n : String) (layers : List TLayer) : Bool :=
  layers.any (strEqLayer n)

/-- Source `map_utils.extract_ground_layer`.  It builds an all-zero
`height × width` grid, then for each name in `['ground', 'ground1']` whose
membership test `name in layers` succeeds it would evaluate
`layers[name][y][x]` — a `TypeError` on the list produced by
`load_tmx_map` (modelled as `none`).  Since the membership test compares a
string against layer dicts it never succeeds (`strEqLayer`), so the
function in fact always returns the untouched all-zero grid. -/
def extract_ground_layer (m : TMap) : Option (List (List ℕ)) :=
  let solid := List.replicate m.height (List.replicate m.width 0)
  if strInLayers "ground" m.layers || strInLayers "ground1" m.layers then
    none
  else some solid

/-- Source `Game.create_collision_grid` (`fornewmap.py`): the grid actually
used for collisions.  It reads only the **first layer named `'ground'`**;
cell `(y, x)` is 1 iff that layer's flat data holds a non-zero gid at index
`y * layer.width + x` (indices past the end of the data are left 0, as in
the source's `if index < len(data)` guard).  When a ground layer is found,
the function's diagnostic prints read `grid[0]` and then `grid[25][x]` and
`grid[29][x]` for every `x < min(10, width)`, so on a map with
`height = 0`, or with `width > 0` and `height < 30`, the source raises
`IndexError` instead of returning — modelled as `none`. -/
def create_collision_grid (m : TMap) : Option (List (List ℕ)) :=
  match m.layers.find? (fun l => l.name == "ground") with
  | none => some (List.replicate m.height (List.replicate m.width 0))
  | some g =>
    if m.height = 0 then none
    else if 0 < m.width ∧ m.height < 30 then none
    else some ((List.range m.height).map (fun y =>
      (List.range m.width).map (fun x =>
        if g.data.getD (y * g.width + x) 0 ≠ 0 then 1 else 0)))

/-- Modelled from the spec and claim C2: the union solid grid — cell
`(y, x)` is 1 iff some layer named `'ground'` or `'ground1'` has a non-zero
gid at that cell. -/
def unionGroundGrid (m : TMap) : List (List ℕ) :=
  (List.range m.height).map (fun y =>
    (List.range m.width).map (fun x =>
      if m.layers.any (fun l =>
          (l.name == "ground" || l.name == "ground1") &&
          l.data.getD (y * l.width + x) 0 != 0) then 1 else 0))

/-! Generic helper lemmas about folds and the index windows. -/

lemma foldl_const {α β : Type} (l : List β) (f : α → β → α) (s : α)
    (h : ∀ p ∈ l, f s p = s) : l.foldl f s = s := by
  induction l with
  | nil => rfl
  | cons a t ih =>
    rw [List.foldl_cons, h a (by simp)]
    exact ih (fun p hp => h p (by simp [hp]))

lemma foldl_congr_inv {α β : Type} (l : List β) (f g : α → β → α)
    (P : α → Prop) (s : α) (hs : P s)
    (hfg : ∀ st p, p ∈ l → P st → f st p = g st p)
    (hP : ∀ st p, P st → P (f st p)) :
    l.foldl f s = l.foldl g s := by
  induction l generalizing s with
  | nil => rfl
  | cons a t ih =>
    rw [List.foldl_cons, List.foldl_cons, ← hfg s a (by simp) hs]
    exact ih (f s a) (hP s a hs)
      (fun st p hp hPst => hfg st p (by simp [hp]) hPst)

lemma foldl_single {α β : Type} [DecidableEq β] (l : List β)
    (f : α → β → α) (s : α) (p : β) (hmem : p ∈ l)
    (hid : ∀ st q, q ∈ l → q ≠ p → f st q = st)
    (hidem : f (f s p) p = f s p) :
    l.foldl f s = f s p := by
  induction l with
  | nil => cases hmem
  | cons a t ih =>
    rw [List.foldl_cons]
    by_cases hap : a = p
    · subst hap
      exact foldl_const t f (f s a) (fun q hq => by
        by_cases hqp : q = a
        · rw [hqp]
          exact hidem
        · exact hid (f s a) q (by simp [hq]) hqp)
    · rw [hid s a (by simp) (fun h => hap h)]
      rcases List.mem_cons.mp hmem with h | h
      · exact absurd h.symm hap
      · exact ih h (fun st q hq hqp => hid st q (by simp [hq]) hqp)

lemma mem_idxRange {a b x : ℤ} (h : x ∈ idxRange a b) : a ≤ x ∧ x < b := by
  unfold idxRange at h
  rcases List.mem_map.mp h with ⟨i, hi, rfl⟩
  rw [List.mem_range] at hi
  omega

lemma mem_winPairs {a1 b1 a2 b2 : ℤ} {p : ℤ × ℤ}
    (h : p ∈ winPairs a1 b1 a2 b2) :
    a1 ≤ p.1 ∧ p.1 < b1 ∧ a2 ≤ p.2 ∧ p.2 < b2 := by
  rcases List.mem_flatMap.mp h with ⟨ty, hty, hmap⟩
  rcases List.mem_map.mp hmap with ⟨tx, htx, rfl⟩
  obtain ⟨h1, h2⟩ := mem_idxRange hty
  obtain ⟨h3, h4⟩ := mem_idxRange htx
  exact ⟨h1, h2, h3, h4⟩

lemma mem_pWindowV_bounds {tiles : Grid} {s : Body} {p : ℤ × ℤ}
    (h : p ∈ pWindowV tiles s) :
    p.1 < rowsOf tiles ∧ p.2 < colsOf tiles := by
  have hm := mem_winPairs (p := p) h
  exact ⟨lt_of_lt_of_le hm.2.1 (min_le_left _ _),
    lt_of_lt_of_le hm.2.2.2 (min_le_left _ _)⟩

lemma mem_pWindowH_bounds {tiles : Grid} {s : Body} {p : ℤ × ℤ}
    (h : p ∈ pWindowH tiles s) :
    p.1 < rowsOf tiles ∧ p.2 < colsOf tiles := by
  have hm := mem_winPairs (p := p) h
  exact ⟨lt_of_lt_of_le hm.2.1 (min_le_left _ _),
    lt_of_lt_of_le hm.2.2.2 (min_le_left _ _)⟩

lemma gidAt_nil (ty tx : ℤ) : gidAt [] ty tx = 0 := by
  unfold gidAt
  split
  · rfl
  · simp [List.getD]

/-- A vertical step on a non-solid or non-overlapping tile changes
nothing. -/
lemma pVStep_id {tiles : Grid} {r : PRect} {q : ℤ × ℤ}
    (h : gidAt tiles q.1 q.2 = 0 ∨ ¬ overlaps r (tileRect q.1 q.2))
    (st : Body) : pVStep tiles r st q = st := by
  unfold pVStep
  rcases h with h | h
  · simp [h]
  · simp [h]

/-- A horizontal step on a non-solid or non-overlapping tile changes
nothing. -/
lemma pHStep_id {tiles : Grid} {r : PRect} {q : ℤ × ℤ}
    (h : gidAt tiles q.1 q.2 = 0 ∨ ¬ overlaps r (tileRect q.1 q.2))
    (st : Body) : pHStep tiles r st q = st := by
  unfold pHStep
  rcases h with h | h
  · simp [h]
  · simp [h]

/-- A vertical step on a body with zero vertical velocity changes
nothing. -/
lemma pVStep_velY_zero {tiles : Grid} {r : PRect} {q : ℤ × ℤ} {st : Body}
    (h : st.velY = 0) : pVStep tiles r st q = st := by
  unfold pVStep
  split_ifs with h1 h2 h3 h4 h5
  · rw [h] at h4
    exact absurd h4 (lt_irrefl 0)
  · rw [h] at h5
    exact absurd h5 (lt_irrefl 0)
  all_goals rfl

/-- Clamped gravity integration equals `min (v + 1000*dt) 500`. -/
lemma pApplyGravity_eq (dt v : ℚ) :
    pApplyGravity dt v = min (v + 1000 * dt) 500 := by
  unfold pApplyGravity
  simp only [qAdd_eq, qMul_eq]
  split_ifs with h
  · exact (min_eq_right h.le).symm
  · exact (min_eq_left (not_lt.mp h)).symm

/-- The dash-timer bookkeeping touches no physics field other than the dash
timers and flag. -/
lemma dashTick_fields (dt : ℚ) (s : Body) :
    (dashTick dt s).x = s.x ∧ (dashTick dt s).y = s.y ∧
    (dashTick dt s).velX = s.velX ∧ (dashTick dt s).velY = s.velY ∧
    (dashTick dt s).onGround = s.onGround := by
  simp only [dashTick]
  split_ifs <;> exact ⟨rfl, rfl, rfl, rfl, rfl⟩

lemma pVertLoop_noOverlap (tiles : Grid) (s : Body)
    (hno : ∀ q ∈ pWindowV tiles s,
      gidAt tiles q.1 q.2 = 0 ∨ ¬ overlaps (bodyRect 24 24 s) (tileRect q.1 q.2)) :
    pVertLoop tiles s = { s with onGround := false } :=
  foldl_const _ _ _ (fun p hp => pVStep_id (hno p hp) _)

lemma pCheckHorizontal_noSolid (tiles : Grid) (s : Body)
    (hz : ∀ ty tx : ℤ, gidAt tiles ty tx = 0) :
    pCheckHorizontal tiles s = s :=
  foldl_const _ _ _ (fun p _ => pHStep_id (Or.inl (hz p.1 p.2)) s)

lemma pVertLoop_noSolid (tiles : Grid) (s : Body)
    (hz : ∀ ty tx : ℤ, gidAt tiles ty tx = 0) :
    pVertLoop tiles s = { s with onGround := false } :=
  pVertLoop_noOverlap tiles s (fun q _ => Or.inl (hz q.1 q.2))

lemma pVertFinish_pos (st : Body) (h1 : st.onGround = false)
    (h2 : 0 ≤ st.velY) (h3 : qAbs (qSub (qAdd st.y 24) 928) ≤ 2) :
    pVertFinish st = { st with y := ((928 - 24 : ℤ) : ℚ), velY := 0,
                               onGround := true, jumpCount := 0 } := by
  simp only [pVertFinish]
  rw [if_pos ⟨h1, h2, h3⟩]

lemma pVertFinish_neg (st : Body)
    (h : ¬ (st.onGround = false ∧ 0 ≤ st.velY ∧
      qAbs (qSub (qAdd st.y 24) 928) ≤ 2)) :
    pVertFinish st = st := by
  simp only [pVertFinish]
  rw [if_neg h]

lemma pVertFinish_skip (st : Body)
    (h : ¬ qAbs (qSub (qAdd st.y 24) 928) ≤ 2) :
    pVertFinish st = st :=
  pVertFinish_neg st (fun hc => h hc.2.2)

/-! Claim-side definitions (each translated from the wording of a claim, to
be compared with the source-translated functions above). -/

/-- Modelled from claim C4's wording: the per-tile vertical update — for a
solid tile overlapping the body, falling (`vel_y > 0`) ⇒ `y = tile.top −
height`, `vel_y = 0`, grounded, `jump_count = 0`; rising (`vel_y < 0`) ⇒
`y = tile.bottom`, `vel_y = 0`. -/
def claimVStep (tiles : Grid) (r : PRect) (st : Body) (p : ℤ × ℤ) : Body :=
  if gidAt tiles p.1 p.2 ≠ 0 ∧ overlaps r (tileRect p.1 p.2) then
    if 0 < st.velY then
      { st with y := ((p.1 * 32 - 24 : ℤ) : ℚ), velY := 0,
                onGround := true, jumpCount := 0 }
    else if st.velY < 0 then
      { st with y := ((p.1 * 32 + 32 : ℤ) : ℚ), velY := 0 }
    else st
  else st

/-- Modelled from claim C9's wording: while dashing, every solid window tile
overlapping the body resolves through the moving-right branch
`x = tile.left − width`. -/
def claimDashStep (tiles : Grid) (r : PRect) (st : Body) (p : ℤ × ℤ) : Body :=
  if gidAt tiles p.1 p.2 ≠ 0 ∧ overlaps r (tileRect p.1 p.2) then
    { st with x := ((p.2 * 32 - 24 : ℤ) : ℚ) }
  else st

/-- C4 (confirmed): the vertical resolution pass first resets grounded to
false, then applies exactly the claim's per-tile updates (`claimVStep`) to
every solid tile of the search window overlapping the body, in row-major
order, and finally runs the ground-level fallback snap. -/
theorem C4_thm (tiles : Grid) (s : Body) :
    pCheckVertical tiles s =
      pVertFinish ((pWindowV tiles s).foldl
        (claimVStep tiles (bodyRect 24 24 s)) { s with onGround := false }) := by
  simp only [pCheckVertical, pVertLoop]
  congr 1
  apply foldl_congr_inv _ _ _ (fun _ => True) _ trivial ?_ (fun _ _ _ => trivial)
  intro st p hp _
  obtain ⟨hrow, hcol⟩ := mem_pWindowV_bounds hp
  simp only [pVStep, claimVStep]
  split_ifs <;> first | rfl | tauto

/-- C9 (confirmed): while `is_dashing` is true, the player's horizontal pass
equals the fold of the forced moving-right resolution (`claimDashStep`) over
the search window, regardless of the sign of `vel_x`. -/
theorem C9_thm (tiles : Grid) (s : Body) (hd : s.isDashing = true) :
    pCheckHorizontal tiles s =
      (pWindowH tiles s).foldl (claimDashStep tiles (bodyRect 24 24 s)) s := by
  simp only [pCheckHorizontal]
  apply foldl_congr_inv _ _ _ (fun st => st.isDashing = true) _ hd ?_ ?_
  · intro st p hp hdash
    obtain ⟨hrow, hcol⟩ := mem_pWindowH_bounds hp
    simp only [pHStep, claimDashStep]
    split_ifs <;> first | rfl | tauto
  · intro st p hdash
    simp only [pHStep]
    split_ifs <;> exact hdash

/-- A dashing, leftward-moving player overlapping the single solid tile of
the grid `[[7]]`. -/
def dashBody : Body := ⟨20, 0, -150, 0, false, 0, true, false, mkRat 1 10, 1⟩

/-- Witness for C9: a concrete dashing state; the pass equals the forced
moving-right fold, and indeed clamps to the tile's left face even though
`vel_x < 0`. -/
theorem C9_wit :
    pCheckHorizontal [[7]] dashBody =
      (pWindowH [[7]] dashBody).foldl
        (claimDashStep [[7]] (bodyRect 24 24 dashBody)) dashBody ∧
    (pCheckHorizontal [[7]] dashBody).x = -24 ∧ dashBody.velX < 0 :=
  ⟨C9_thm [[7]] dashBody rfl, by decide, by decide⟩

/-- C10 (confirmed): zero velocity on an axis is never resolved: with
`vel_x = 0` and not dashing the horizontal pass is the identity, and with
`vel_y = 0` the vertical sweep only resets grounded, so the whole vertical
pass reduces to the ground-level fallback snap. -/
theorem C10_thm (tiles : Grid) (s : Body) :
    (s.velX = 0 → s.isDashing = false → pCheckHorizontal tiles s = s) ∧
    (s.velY = 0 → pVertLoop tiles s = { s with onGround := false } ∧
      pCheckVertical tiles s = pVertFinish { s with onGround := false }) := by
  constructor
  · intro hvx hds
    refine foldl_const _ _ _ (fun p hp => ?_)
    simp only [pHStep]
    split_ifs with hb hg ho hc4 hc5
    · exfalso
      rcases hc4 with h | h
      · rw [hvx] at h
        exact absurd h (lt_irrefl 0)
      · rw [hds] at h
        simp at h
    · exfalso
      rcases hc5 with h | h
      · rw [hvx] at h
        exact absurd h (lt_irrefl 0)
      · rw [hds] at h
        simp at h
    all_goals rfl
  · intro hvy
    have hl : pVertLoop tiles s = { s with onGround := false } :=
      foldl_const _ _ _ (fun p hp => pVStep_velY_zero hvy)
    exact ⟨hl, by simp only [pCheckVertical, hl]⟩

/-- A body with zero velocity overlapping the single solid tile of `[[5]]`. -/
def stuckBody : Body := ⟨4, 4, 0, 0, false, 0, false, true, 0, 0⟩

/-- Witness for C10: the zero-velocity body overlapping a solid tile is left
in place on both axes. -/
theorem C10_wit :
    pCheckHorizontal [[5]] stuckBody = stuckBody ∧
    pVertLoop [[5]] stuckBody = { stuckBody with onGround := false } ∧
    gidAt [[5]] 0 0 ≠ 0 ∧ overlaps (bodyRect 24 24 stuckBody) (tileRect 0 0) :=
  ⟨(C10_thm [[5]] stuckBody).1 rfl rfl,
   ((C10_thm [[5]] stuckBody).2 rfl).1, by decide, by decide⟩

/-- C3 amended (corrected): a body resting exactly flush on a tile touches
it only edge-to-edge, so the sweep does not fire; grounded arises only from
the ground-level fallback: a flush body at the hardcoded ground level
(`y = 928 − height`) with `vel_y ≥ 0` and no strict overlap is grounded
with `vel_y = 0` and `y` unchanged. -/
theorem C3_thm (tiles : Grid) (s : Body)
    (hno : ∀ q ∈ pWindowV tiles s,
      gidAt tiles q.1 q.2 = 0 ∨ ¬ overlaps (bodyRect 24 24 s) (tileRect q.1 q.2))
    (hy : s.y = ((928 - 24 : ℤ) : ℚ)) (hv : 0 ≤ s.velY) :
    (pCheckVertical tiles s).onGround = true ∧
    (pCheckVertical tiles s).y = s.y ∧ (pCheckVertical tiles s).velY = 0 := by
  have hl : pVertLoop tiles s = { s with onGround := false } :=
    pVertLoop_noOverlap tiles s hno
  have harith : qAbs (qSub (qAdd ({ s with onGround := false } : Body).y 24) 928) ≤ 2 := by
    show qAbs (qSub (qAdd s.y 24) 928) ≤ 2
    rw [qAbs_eq, qSub_eq, qAdd_eq, hy]
    norm_num
  simp only [pCheckVertical, hl]
  rw [pVertFinish_pos ({ s with onGround := false }) rfl hv harith]
  refine ⟨rfl, ?_, rfl⟩
  rw [hy]

/-- The 30×4 grid whose row 29 (tile tops at pixel 928) is fully solid. -/
def groundGrid : Grid :=
  (List.range 30).map (fun r => (List.range 4).map (fun _ => if r = 29 then 1 else 0))

/-- A body resting exactly flush on top of the row-29 ground tiles. -/
def flushBody : Body := ⟨100, 904, 0, 0, false, 0, false, true, 0, 0⟩

/-- Witness for C3's amended statement: flush on the ground-level tile row,
the pass grounds the body, keeps `y`, zeroes `vel_y`. -/
theorem C3_wit :
    (pCheckVertical groundGrid flushBody).onGround = true ∧
    (pCheckVertical groundGrid flushBody).y = flushBody.y ∧
    (pCheckVertical groundGrid flushBody).velY = 0 ∧
    gidAt groundGrid 29 3 ≠ 0 := by
  obtain ⟨h1, h2, h3⟩ := C3_thm groundGrid flushBody (by decide) (by decide) (by decide)
  exact ⟨h1, h2, h3, by decide⟩

/-- The 11×6 grid with a single solid tile at row 10, column 5 (top at
pixel 320). -/
def highTileGrid : Grid :=
  (List.range 11).map (fun r => (List.range 6).map (fun c =>
    if r = 10 ∧ c = 5 then 1 else 0))

/-- A body resting exactly flush on top of that tile
(`y = 320 − 24 = 296`, `vel_y = 0`). -/
def flushHigh : Body := ⟨160, 296, 0, 0, false, 0, false, true, 0, 0⟩

/-- Counterexample to C3 as stated: resting exactly flush on a solid tile
away from the hardcoded ground level, the vertical pass leaves grounded
false (edge contact is not an overlap for `colliderect`). -/
theorem C3_cex :
    flushHigh.y = ((10 * 32 - 24 : ℤ) : ℚ) ∧ gidAt highTileGrid 10 5 ≠ 0 ∧
    0 ≤ flushHigh.velY ∧
    (pCheckVertical highTileGrid flushHigh).onGround = false ∧
    (pCheckVertical highTileGrid flushHigh).y = flushHigh.y := by decide

/-- C7 amended (corrected): the fallback snap additionally requires
`vel_y ≥ 0`: if grounded is still false after the sweep, the body is not
rising, and the bottom edge is within 2 px of the ground level 928, the
pass forces grounded = true, snaps `y` onto the level, and zeroes
`vel_y`. -/
theorem C7_thm (tiles : Grid) (s : Body)
    (h1 : (pVertLoop tiles s).onGround = false)
    (h2 : 0 ≤ (pVertLoop tiles s).velY)
    (h3 : |(pVertLoop tiles s).y + 24 - 928| ≤ 2) :
    (pCheckVertical tiles s).onGround = true ∧
    (pCheckVertical tiles s).y = ((928 - 24 : ℤ) : ℚ) ∧
    (pCheckVertical tiles s).velY = 0 := by
  have hc : qAbs (qSub (qAdd (pVertLoop tiles s).y 24) 928) ≤ 2 := by
    rw [qAbs_eq, qSub_eq, qAdd_eq]
    exact h3
  simp only [pCheckVertical]
  rw [pVertFinish_pos (pVertLoop tiles s) h1 h2 hc]
  exact ⟨rfl, rfl, rfl⟩

/-- A body 1 px above the ground level, not rising. -/
def nearGroundBody : Body := ⟨100, 905, 0, 0, false, 0, false, true, 0, 0⟩

/-- Witness for C7's amended statement. -/
theorem C7_wit :
    (pCheckVertical [[0]] nearGroundBody).onGround = true ∧
    (pCheckVertical [[0]] nearGroundBody).y = ((928 - 24 : ℤ) : ℚ) ∧
    (pCheckVertical [[0]] nearGroundBody).velY = 0 :=
  C7_thm [[0]] nearGroundBody (by decide) (by decide)
    (by
      have h : (pVertLoop [[0]] nearGroundBody).y = 905 := by decide
      rw [h]
      norm_num)

/-- A rising body (`vel_y < 0`) whose bottom edge sits exactly at the
ground level. -/
def risingBody : Body := ⟨100, 904, 0, -100, false, 0, false, true, 0, 0⟩

/-- Counterexample to C7 as stated: grounded is false after the sweep and
the bottom edge is within 2 px of the ground level, yet the pass does not
force grounded because `vel_y < 0`. -/
theorem C7_cex :
    (pVertLoop [[0]] risingBody).onGround = false ∧
    qAbs (qSub (qAdd (pVertLoop [[0]] risingBody).y 24) 928) ≤ 2 ∧
    (pCheckVertical [[0]] risingBody).onGround = false ∧
    (pCheckVertical [[0]] risingBody).y = risingBody.y := by decide

/-- C8 (confirmed): on a body that no longer overlaps any solid tile of its
search window, running the vertical pass twice in succession changes the
position no further than running it once (the second run is a positional
no-op; tiles outside the window cannot overlap the body in the first
place). -/
theorem C8_thm (tiles : Grid) (s : Body)
    (hno : ∀ q ∈ pWindowV tiles s,
      gidAt tiles q.1 q.2 = 0 ∨ ¬ overlaps (bodyRect 24 24 s) (tileRect q.1 q.2)) :
    (pCheckVertical tiles (pCheckVertical tiles s)).x = (pCheckVertical tiles s).x ∧
    (pCheckVertical tiles (pCheckVertical tiles s)).y = (pCheckVertical tiles s).y := by
  have hl : pVertLoop tiles s = { s with onGround := false } :=
    pVertLoop_noOverlap tiles s hno
  have hpass : pCheckVertical tiles s = pVertFinish { s with onGround := false } := by
    simp only [pCheckVertical, hl]
  by_cases hc : 0 ≤ s.velY ∧ qAbs (qSub (qAdd s.y 24) 928) ≤ 2
  · have hfin : pVertFinish { s with onGround := false } =
        { s with y := ((928 - 24 : ℤ) : ℚ), velY := 0, onGround := true,
                 jumpCount := 0 } :=
      pVertFinish_pos _ rfl hc.1 hc.2
    have hl2 : pVertLoop tiles
        ({ s with y := ((928 - 24 : ℤ) : ℚ), velY := 0, onGround := true,
                  jumpCount := 0 } : Body) =
        { s with y := ((928 - 24 : ℤ) : ℚ), velY := 0, onGround := false,
                 jumpCount := 0 } :=
      foldl_const _ _ _ (fun p hp => pVStep_velY_zero rfl)
    have harith : qAbs (qSub (qAdd ((928 - 24 : ℤ) : ℚ) 24) 928) ≤ 2 := by
      rw [qAbs_eq, qSub_eq, qAdd_eq]
      norm_num
    have hfin2 : pVertFinish
        ({ s with y := ((928 - 24 : ℤ) : ℚ), velY := 0, onGround := false,
                  jumpCount := 0 } : Body) =
        { s with y := ((928 - 24 : ℤ) : ℚ), velY := 0, onGround := true,
                 jumpCount := 0 } :=
      pVertFinish_pos _ rfl (le_refl (0 : ℚ)) harith
    rw [hpass, hfin]
    simp only [pCheckVertical, hl2, hfin2]
    exact ⟨trivial, trivial⟩
  · have hfin : pVertFinish { s with onGround := false } =
        { s with onGround := false } :=
      pVertFinish_neg _ (fun hcc => hc ⟨hcc.2.1, hcc.2.2⟩)
    have hl2 : pVertLoop tiles ({ s with onGround := false } : Body) =
        { s with onGround := false } :=
      pVertLoop_noOverlap tiles _ (fun q hq => hno q hq)
    rw [hpass, hfin]
    simp only [pCheckVertical, hl2, hfin]
    exact ⟨trivial, trivial⟩

/-- An airborne body far from any tile of the grid `[[0]]`. -/
def idleBody : Body := ⟨50, 100, 0, 0, false, 0, false, true, 0, 0⟩

/-- Witness for C8. -/
theorem C8_wit :
    (pCheckVertical [[0]] (pCheckVertical [[0]] idleBody)).x =
      (pCheckVertical [[0]] idleBody).x ∧
    (pCheckVertical [[0]] (pCheckVertical [[0]] idleBody)).y =
      (pCheckVertical [[0]] idleBody).y :=
  C8_thm [[0]] idleBody (by decide)

/-- Resolving the same tile twice in a row has no further effect: both
branches write a constant to `x` and the branch conditions do not read
`x`. -/
lemma pHStep_idem (tiles : Grid) (r : PRect) (st : Body) (p : ℤ × ℤ) :
    pHStep tiles r (pHStep tiles r st p) p = pHStep tiles r st p := by
  by_cases hb : p.1 < rowsOf tiles ∧ p.2 < colsOf tiles
  · by_cases hg : gidAt tiles p.1 p.2 ≠ 0
    · by_cases ho : overlaps r (tileRect p.1 p.2)
      · by_cases h1 : 0 < st.velX ∨ st.isDashing = true
        · simp only [pHStep, if_pos hb, if_pos hg, if_pos ho]
          rw [if_pos h1]
          rw [if_pos (show 0 < ({ st with x := ((p.2 * 32 - 24 : ℤ) : ℚ) } : Body).velX ∨
            ({ st with x := ((p.2 * 32 - 24 : ℤ) : ℚ) } : Body).isDashing = true from h1)]
        · by_cases h2 : st.velX < 0 ∨ st.isDashing = true
          · simp only [pHStep, if_pos hb, if_pos hg, if_pos ho]
            rw [if_neg h1, if_pos h2]
            rw [if_neg (show ¬ (0 < ({ st with x := ((p.2 * 32 + 32 : ℤ) : ℚ) } : Body).velX ∨
              ({ st with x := ((p.2 * 32 + 32 : ℤ) : ℚ) } : Body).isDashing = true) from h1)]
            rw [if_pos (show ({ st with x := ((p.2 * 32 + 32 : ℤ) : ℚ) } : Body).velX < 0 ∨
              ({ st with x := ((p.2 * 32 + 32 : ℤ) : ℚ) } : Body).isDashing = true from h2)]
          · simp only [pHStep, if_pos hb, if_pos hg, if_pos ho]
            rw [if_neg h1, if_neg h2, if_neg h1, if_neg h2]
      · simp only [pHStep, if_pos hb, if_pos hg, if_neg ho]
    · simp only [pHStep, if_pos hb, if_neg hg]
  · simp only [pHStep, if_neg hb]

/-- C6 amended (corrected): for the single solid tile overlapping the
player, the horizontal pass clamps to the tile's left face whenever
`vel_x > 0` **or the player is dashing**, clamps to the tile's right face
when `vel_x < 0` and not dashing, and never modifies `vel_x`. -/
theorem C6_thm (tiles : Grid) (s : Body) (p : ℤ × ℤ)
    (hmem : p ∈ pWindowH tiles s)
    (hsolid : gidAt tiles p.1 p.2 ≠ 0)
    (hover : overlaps (bodyRect 24 24 s) (tileRect p.1 p.2))
    (honly : ∀ q ∈ pWindowH tiles s, q ≠ p →
      gidAt tiles q.1 q.2 = 0 ∨ ¬ overlaps (bodyRect 24 24 s) (tileRect q.1 q.2)) :
    ((0 < s.velX ∨ s.isDashing = true) →
      (pCheckHorizontal tiles s).x = ((p.2 * 32 - 24 : ℤ) : ℚ)) ∧
    (s.velX < 0 → s.isDashing = false →
      (pCheckHorizontal tiles s).x = ((p.2 * 32 + 32 : ℤ) : ℚ)) ∧
    (pCheckHorizontal tiles s).velX = s.velX := by
  obtain ⟨hrow, hcol⟩ := mem_pWindowH_bounds hmem
  have hfold : pCheckHorizontal tiles s = pHStep tiles (bodyRect 24 24 s) s p := by
    simp only [pCheckHorizontal]
    exact foldl_single _ _ _ p hmem
      (fun st q hq hqp => pHStep_id (honly q hq hqp) st)
      (pHStep_idem tiles (bodyRect 24 24 s) s p)
  refine ⟨?_, ?_, ?_⟩
  · intro hv
    rw [hfold]
    simp only [pHStep]
    rw [if_pos ⟨hrow, hcol⟩, if_pos hsolid, if_pos hover, if_pos hv]
  · intro hvneg hnd
    have hnot : ¬ (0 < s.velX ∨ s.isDashing = true) := by
      rintro (h | h)
      · linarith
      · rw [hnd] at h
        exact absurd h (by simp)
    rw [hfold]
    simp only [pHStep]
    rw [if_pos ⟨hrow, hcol⟩, if_pos hsolid, if_pos hover, if_neg hnot,
      if_pos (Or.inl hvneg)]
  · rw [hfold]
    simp only [pHStep]
    split_ifs <;> rfl

/-- A non-dashing player moving left while overlapping the single solid
tile of `[[3]]`. -/
def leftBody : Body := ⟨20, 0, -150, 0, false, 0, false, false, 0, 0⟩

/-- Witness for C6's amended statement: the moving-left branch. -/
theorem C6_wit :
    (pCheckHorizontal [[3]] leftBody).x = ((0 * 32 + 32 : ℤ) : ℚ) ∧
    (pCheckHorizontal [[3]] leftBody).velX = leftBody.velX := by
  obtain ⟨h1, h2, h3⟩ :=
    C6_thm [[3]] leftBody (0, 0) (by decide) (by decide) (by decide) (by decide)
  exact ⟨h2 (by decide) rfl, h3⟩

/-- Counterexample to C6 as stated: a dashing player moving left
(`vel_x < 0`) into a solid tile is clamped to the tile's **left** face
(`x = tile.left − width = −24`), not to `tile.right = 32` as the claim's
symmetric clause requires. -/
theorem C6_cex :
    dashBody.velX < 0 ∧ gidAt [[7]] 0 0 ≠ 0 ∧
    overlaps (bodyRect 24 24 dashBody) (tileRect 0 0) ∧
    (pCheckHorizontal [[7]] dashBody).x = -24 ∧
    (pCheckHorizontal [[7]] dashBody).x ≠ ((0 * 32 + 32 : ℤ) : ℚ) := by decide

/-- C5 amended (corrected): the player's update integrates gravity and
clamps `vel_y` to `max_fall_speed = 500` (the integration equals
`min (v + 1000·dt) 500`), but the NPC's update integrates `vel_y += 600·dt`
with **no** fall-speed clamp. -/
theorem C5_thm (dt v : ℚ) (s : Body) :
    pApplyGravity dt v = min (v + 1000 * dt) 500 ∧
    (npcUpdate noKeys dt [] s).velY = s.velY + 600 * dt := by
  refine ⟨pApplyGravity_eq dt v, ?_⟩
  have h : npcUpdate noKeys dt [] s =
      dashTick dt { s with velX := 0, velY := qAdd s.velY (qMul 600 dt),
                           x := qAdd s.x (qMul 0 dt),
                           y := qAdd s.y (qMul (qAdd s.velY (qMul 600 dt)) dt) } := rfl
  rw [h, (dashTick_fields dt _).2.2.2.1]
  show qAdd s.velY (qMul 600 dt) = s.velY + 600 * dt
  rw [qAdd_eq, qMul_eq]

/-- An NPC already falling at 600 px/s — faster than the player's
`max_fall_speed` of 500. -/
def fastNpc : Body := ⟨0, 0, 0, 600, false, 0, false, true, 0, 0⟩

/-- Counterexample to C5 as stated: after one NPC tick at dt = 1/60 the
NPC's `vel_y` is 610, exceeding the program's only `max_fall_speed`
(the player's 500) — no clamp was applied. -/
theorem C5_cex :
    (npcUpdate noKeys (mkRat 1 60) [] fastNpc).velY = 610 ∧
    (500 : ℚ) < 610 := by decide

/-- A 30-row, 2-column map — tall enough that `create_collision_grid`'s
diagnostic prints do not raise.  Layer `'ground'` is solid only at cell
(0, 0), layer `'ground1'` only at cell (0, 1). -/
def tallMap : TMap :=
  ⟨2, 30, [⟨"ground", 2, 30, 5 :: List.replicate 59 0⟩,
           ⟨"ground1", 2, 30, 0 :: 7 :: List.replicate 58 0⟩]⟩

/-- C2 (code bug): the union the spec (and `extract_ground_layer`'s own
docstring) describes has top row `[1, 1]` on `tallMap`, but
`extract_ground_layer` returns the all-zero grid — its `name in layers`
membership test compares a string against layer dicts and never succeeds —
and the collision grid the game actually uses,
`create_collision_grid`, reads only the `'ground'` layer, giving top row
`[1, 0]`.  The last conjunct shows `extract_ground_layer` returns the
all-zero grid on **every** map. -/
theorem C2_thm :
    extract_ground_layer tallMap =
      some (List.replicate 30 (List.replicate 2 0)) ∧
    create_collision_grid tallMap =
      some ([1, 0] :: List.replicate 29 [0, 0]) ∧
    unionGroundGrid tallMap = [1, 1] :: List.replicate 29 [0, 0] ∧
    (∀ m : TMap, extract_ground_layer m =
      some (List.replicate m.height (List.replicate m.width 0))) := by
  refine ⟨by decide, by decide, by decide, ?_⟩
  intro m
  simp [extract_ground_layer, strInLayers, strEqLayer]

/-- The integration block when the clamped integrated `y` does not cross
the ground level 928. -/
lemma playerPhysics_low (dt : ℚ) (s : Body)
    (h : ¬ 928 < qMax 0 (qMin (qAdd s.y (qMul (pApplyGravity dt s.velY) dt))
      ((960 - 24 : ℤ) : ℚ))) :
    playerPhysics dt s =
      { s with velY := pApplyGravity dt s.velY,
               x := qMax 0 (qMin (qAdd s.x (qMul s.velX dt)) ((1920 - 24 : ℤ) : ℚ)),
               y := qMax 0 (qMin (qAdd s.y (qMul (pApplyGravity dt s.velY) dt))
                 ((960 - 24 : ℤ) : ℚ)) } := by
  simp only [playerPhysics]
  rw [if_neg h]

/-- The integration block when the clamped integrated `y` crosses the
ground level 928: snap to `928 − height`, zero `vel_y`, ground the body. -/
lemma playerPhysics_high (dt : ℚ) (s : Body)
    (h : 928 < qMax 0 (qMin (qAdd s.y (qMul (pApplyGravity dt s.velY) dt))
      ((960 - 24 : ℤ) : ℚ))) :
    playerPhysics dt s =
      { s with x := qMax 0 (qMin (qAdd s.x (qMul s.velX dt)) ((1920 - 24 : ℤ) : ℚ)),
               y := ((928 - 24 : ℤ) : ℚ), velY := 0, onGround := true } := by
  simp only [playerPhysics]
  rw [if_pos h]

/-- C1 amended (corrected): over a grid with no solid tiles (or a missing
grid) and with no input, one player tick under gravity strictly increases
`y` and leaves grounded alone (missing grid) or false (solid-free grid) —
but only while the integrated position stays clear of the hardcoded ground
level; as soon as the integrated `y` passes 928, the update snaps
`y = 928 − height`, zeroes `vel_y`, and reports grounded = true, even with
a missing/empty grid. -/
theorem C1_thm (tiles : Grid) (dt : ℚ) (s : Body)
    (hz : ∀ ty tx : ℤ, gidAt tiles ty tx = 0)
    (hdt : 0 < dt) (hvy : 0 ≤ s.velY) (hy0 : 0 ≤ s.y)
    (hx0 : 0 ≤ s.x) (hx1 : s.x ≤ ((1920 - 24 : ℤ) : ℚ)) :
    (s.y + min (s.velY + 1000 * dt) 500 * dt < 902 →
      (playerUpdate noKeys dt tiles s).y =
        s.y + min (s.velY + 1000 * dt) 500 * dt ∧
      s.y < (playerUpdate noKeys dt tiles s).y ∧
      (playerUpdate noKeys dt tiles s).onGround =
        (if tiles = [] then s.onGround else false)) ∧
    (928 < s.y + min (s.velY + 1000 * dt) 500 * dt →
      (playerUpdate noKeys dt tiles s).onGround = true ∧
      (playerUpdate noKeys dt tiles s).y = ((928 - 24 : ℤ) : ℚ) ∧
      (playerUpdate noKeys dt tiles s).velY = 0) := by
  have hvy' : 0 < min (s.velY + 1000 * dt) 500 := by
    have h1000 : (0 : ℚ) < 1000 * dt := by positivity
    exact lt_min (by linarith) (by norm_num)
  have hmove : playerMove noKeys s = { s with velX := 0 } := rfl
  have hgrav : pApplyGravity dt s.velY = min (s.velY + 1000 * dt) 500 :=
    pApplyGravity_eq dt s.velY
  have hxin : qAdd s.x (qMul (0 : ℚ) dt) = s.x := by
    rw [qAdd_eq, qMul_eq]
    ring
  have hxcl : qMax 0 (qMin s.x ((1920 - 24 : ℤ) : ℚ)) = s.x := by
    rw [qMin_eq, qMax_eq, min_eq_left hx1, max_eq_right hx0]
  have hyin : qAdd s.y (qMul (pApplyGravity dt s.velY) dt) =
      s.y + min (s.velY + 1000 * dt) 500 * dt := by
    rw [qAdd_eq, qMul_eq, hgrav]
  have hupd : playerUpdate noKeys dt tiles s =
      dashTick dt (if tiles = [] then playerPhysics dt (playerMove noKeys s)
        else pCheckVertical tiles
          (pCheckHorizontal tiles (playerPhysics dt (playerMove noKeys s)))) := rfl
  constructor
  · intro hY
    have hy1 : s.y < s.y + min (s.velY + 1000 * dt) 500 * dt := by
      have := mul_pos hvy' hdt
      linarith
    have hycl : qMax 0 (qMin (qAdd s.y (qMul (pApplyGravity dt s.velY) dt))
        ((960 - 24 : ℤ) : ℚ)) = s.y + min (s.velY + 1000 * dt) 500 * dt := by
      rw [hyin, qMin_eq, qMax_eq, min_eq_left (by push_cast; linarith),
        max_eq_right (by linarith)]
    have hcond : ¬ 928 < qMax 0 (qMin
        (qAdd ({ s with velX := 0 } : Body).y
          (qMul (pApplyGravity dt ({ s with velX := 0 } : Body).velY) dt))
        ((960 - 24 : ℤ) : ℚ)) := by
      show ¬ 928 < qMax 0 (qMin (qAdd s.y (qMul (pApplyGravity dt s.velY) dt))
        ((960 - 24 : ℤ) : ℚ))
      rw [hycl]
      linarith
    have hphys : playerPhysics dt ({ s with velX := 0 } : Body) =
        { s with velX := 0, velY := min (s.velY + 1000 * dt) 500, y := s.y + min (s.velY + 1000 * dt) 500 * dt } := by
      rw [playerPhysics_low dt _ hcond]
      dsimp only
      rw [hycl, hxin, hxcl, hgrav]
    by_cases ht : tiles = []
    · rw [hupd, if_pos ht, hmove, hphys]
      obtain ⟨hdx, hdy, hdvx, hdvy, hdog⟩ := dashTick_fields dt ({ s with velX := 0, velY := min (s.velY + 1000 * dt) 500, y := s.y + min (s.velY + 1000 * dt) 500 * dt } : Body)
      refine ⟨by rw [hdy], ?_, by rw [hdog, if_pos ht]⟩
      rw [hdy]
      exact hy1
    · rw [hupd, if_neg ht, hmove, hphys]
      rw [pCheckHorizontal_noSolid _ _ hz]
      simp only [pCheckVertical]
      rw [pVertLoop_noSolid _ _ hz]
      have hnf : ¬ qAbs (qSub (qAdd (s.y + min (s.velY + 1000 * dt) 500 * dt) 24) 928) ≤ 2 := by
        rw [qAbs_eq, qSub_eq, qAdd_eq]
        intro habs
        rw [abs_le] at habs
        linarith [habs.1]
      rw [pVertFinish_skip ({ s with velX := 0, velY := min (s.velY + 1000 * dt) 500, y := s.y + min (s.velY + 1000 * dt) 500 * dt, onGround := false } : Body) hnf]
      obtain ⟨hdx, hdy, hdvx, hdvy, hdog⟩ := dashTick_fields dt ({ s with velX := 0, velY := min (s.velY + 1000 * dt) 500, y := s.y + min (s.velY + 1000 * dt) 500 * dt, onGround := false } : Body)
      refine ⟨by rw [hdy], ?_, by rw [hdog, if_neg ht]⟩
      rw [hdy]
      exact hy1
  · intro hY2
    have hycl2 : 928 < qMax 0 (qMin
        (qAdd ({ s with velX := 0 } : Body).y
          (qMul (pApplyGravity dt ({ s with velX := 0 } : Body).velY) dt))
        ((960 - 24 : ℤ) : ℚ)) := by
      show 928 < qMax 0 (qMin (qAdd s.y (qMul (pApplyGravity dt s.velY) dt))
        ((960 - 24 : ℤ) : ℚ))
      rw [hyin, qMin_eq, qMax_eq]
      exact lt_of_lt_of_le (lt_min hY2 (by push_cast; norm_num)) (le_max_right 0 _)
    have hphys2 : playerPhysics dt ({ s with velX := 0 } : Body) =
        { s with velX := 0, y := ((928 - 24 : ℤ) : ℚ), velY := 0, onGround := true } := by
      rw [playerPhysics_high dt _ hycl2]
      dsimp only
      rw [hxin, hxcl]
    by_cases ht : tiles = []
    · rw [hupd, if_pos ht, hmove, hphys2]
      obtain ⟨hdx, hdy, hdvx, hdvy, hdog⟩ := dashTick_fields dt ({ s with velX := 0, y := ((928 - 24 : ℤ) : ℚ), velY := 0, onGround := true } : Body)
      exact ⟨by rw [hdog], by rw [hdy], by rw [hdvy]⟩
    · rw [hupd, if_neg ht, hmove, hphys2]
      rw [pCheckHorizontal_noSolid _ _ hz]
      simp only [pCheckVertical]
      rw [pVertLoop_noSolid _ _ hz]
      have harith9 : qAbs (qSub (qAdd ((928 - 24 : ℤ) : ℚ) 24) 928) ≤ 2 := by
        rw [qAbs_eq, qSub_eq, qAdd_eq]
        norm_num
      rw [pVertFinish_pos ({ s with velX := 0, y := ((928 - 24 : ℤ) : ℚ), velY := 0, onGround := false } : Body) rfl (le_refl (0 : ℚ)) harith9]
      obtain ⟨hdx, hdy, hdvx, hdvy, hdog⟩ := dashTick_fields dt ({ s with velX := 0, y := ((928 - 24 : ℤ) : ℚ), velY := 0, onGround := true, jumpCount := 0 } : Body)
      exact ⟨by rw [hdog], by rw [hdy], by rw [hdvy]⟩

/-- A body just below the hardcoded ground level, falling from rest over a
missing (empty) collision grid. -/
def fallingBody : Body := ⟨100, 930, 0, 0, false, 0, false, true, 0, 0⟩

/-- Witness for C1's amended statement at `dt = 1`: the integrated position
crosses 928, so one tick grounds the body and snaps it to `y = 904` even
though the grid is empty. -/
theorem C1_wit :
    (playerUpdate noKeys 1 [] fallingBody).onGround = true ∧
    (playerUpdate noKeys 1 [] fallingBody).y = ((928 - 24 : ℤ) : ℚ) ∧
    (playerUpdate noKeys 1 [] fallingBody).velY = 0 :=
  (C1_thm [] 1 fallingBody gidAt_nil (by norm_num) (by decide) (by decide)
      (by decide) (by decide)).2
    (by
      have h1 : fallingBody.y = 930 := rfl
      have h2 : fallingBody.velY = 0 := rfl
      rw [h1, h2, min_eq_right (by norm_num : (500 : ℚ) ≤ 0 + 1000 * 1)]
      norm_num)

/-- Counterexample to C1 as stated: over the empty (missing) grid — which
trivially contains no solid tiles — a falling body reports
grounded = true after a single tick, because `Player.update` hard-clamps at
the hardcoded ground level 928 independently of the collision grid. -/
theorem C1_cex :
    (playerUpdate noKeys (mkRat 1 60) [] fallingBody).onGround = true ∧
    fallingBody.onGround = false := by decide

end Platformer
